import Mathlib

/-
  Verification development for the `auth0-fastapi-api` plugin.

  Shallow embedding of the Python sources:
    - `fastapi_plugin/utils.py`        (canonical URL resolution, scope check)
    - `fastapi_plugin/fast_api_client.py` (the `require_auth` dependency)
    - `fastapi_plugin/test_utils.py`   (JWK thumbprint, token claim construction)

  Python strings are Lean `String`s, Python dicts are association lists with
  Python's assignment/`setdefault` semantics, bytes are `List Nat` (each < 256),
  machine-level hashing (`hashlib.sha256`) is an executable Lean SHA-256 over
  `Nat` arithmetic taken mod 2^32.
-/

/-! ## Python string primitives -/

/-- Python's default whitespace set for `str.strip` / `str.split` (ASCII part:
the sources only ever strip header values, which are ASCII). -/
def pyIsSpace (c : Char) : Bool :=
  c == ' ' || c == '\t' || c == '\n' || c == '\r' || c == '\x0b' || c == '\x0c'

/-- Remove leading whitespace from a character list (`str.lstrip`). -/
def lstripL (l : List Char) : List Char := l.dropWhile pyIsSpace

/-- Remove trailing whitespace from a character list (`str.rstrip`). -/
def rstripL (l : List Char) : List Char := (l.reverse.dropWhile pyIsSpace).reverse

/-- Python `str.strip()`: remove whitespace from both ends. -/
def pyStrip (s : String) : String := String.mk (lstripL (rstripL s.data))

/-- Python `str.rstrip()` on a string. -/
def pyRstrip (s : String) : String := String.mk (rstripL s.data)

/-- Python `str.rstrip("/")`: remove trailing `/` characters. -/
def rstripSlashes (s : String) : String :=
  String.mk (s.data.reverse.dropWhile (fun c => c == '/')).reverse

/-- Python `str.lower()` (ASCII case folding; header/scheme values are ASCII). -/
def strLower (s : String) : String := String.mk (s.data.map Char.toLower)

/-- Character-list prefix test (Python's `url[:n] == pre` comparisons). -/
def startsWithL : List Char → List Char → Bool
  | _, [] => true
  | [], _ :: _ => false
  | c :: cs, p :: ps => c == p && startsWithL cs ps

/-- String prefix test over the character lists. -/
def strStarts (s pre : String) : Bool := startsWithL s.data pre.data

/-- Helper for Python's no-argument `str.split()`: `acc` is the reversed
current token. Runs of whitespace are separators; empty tokens are dropped. -/
def splitWsAux : List Char → List Char → List String
  | [], acc => if acc.isEmpty then [] else [String.mk acc.reverse]
  | c :: cs, acc =>
    if pyIsSpace c then
      if acc.isEmpty then splitWsAux cs []
      else String.mk acc.reverse :: splitWsAux cs []
    else splitWsAux cs (c :: acc)

/-- Python `str.split()` with no arguments: split on whitespace runs. -/
def pySplitWs (s : String) : List String := splitWsAux s.data []

/-! ## Request model

A Starlette `Request` is modelled by its parsed URL components (the code's
`urlparse(str(request.url))`), its headers, and the application's
`trust_proxy` state flag (`getattr(request.app.state, 'trust_proxy', False)`;
a missing attribute behaves exactly like `False`, so a `Bool` captures it). -/

/-- The components returned by `urllib.parse.urlparse`. -/
structure UrlParts where
  scheme : String
  netloc : String
  path : String
  params : String
  query : String
  fragment : String
deriving DecidableEq

/-- HTTP headers as a name/value list; lookups are case-insensitive
(Starlette's `Headers.get`). -/
abbrev Headers := List (String × String)

/-- Starlette `request.headers.get(k)`: case-insensitive name match, first hit. -/
def headersGet (hs : Headers) (k : String) : Option String :=
  (hs.find? (fun p => strLower p.1 == strLower k)).map Prod.snd

/-- The parts of a request that `get_canonical_url` consumes. -/
structure Request where
  url : UrlParts
  headers : Headers
  trust_proxy : Bool

/-! ## urllib.parse reassembly -/

/-- Port of `urllib.parse.urlunsplit`. -/
def urlunsplit (scheme netloc url query fragment : String) : String :=
  let url1 :=
    if (netloc != "") || ((url != "") && strStarts url "//") then
      "//" ++ netloc ++ (if (url != "") && (!(strStarts url "/")) then "/" ++ url else url)
    else url
  let url2 := if scheme != "" then scheme ++ ":" ++ url1 else url1
  let url3 := if query != "" then url2 ++ "?" ++ query else url2
  if fragment != "" then url3 ++ "#" ++ fragment else url3

/-- Port of `urllib.parse.urlunparse`. -/
def urlunparse (scheme netloc path params query fragment : String) : String :=
  urlunsplit scheme netloc (if params != "" then path ++ ";" ++ params else path) query fragment

/-- The literal URL the transport layer observed (`str(request.url)`),
reassembled from its parsed components. -/
def directUrl (u : UrlParts) : String :=
  urlunparse u.scheme u.netloc u.path u.params u.query u.fragment

/-- Drop the fragment component of a parsed URL. -/
def dropFragment (u : UrlParts) : UrlParts := { u with fragment := "" }

/-! ## fastapi_plugin/utils.py -/

/-- `_should_trust_proxy`: reads `request.app.state.trust_proxy` with default
`False` (the `AttributeError` fallback also yields `False`). -/
def _should_trust_proxy (r : Request) : Bool := r.trust_proxy

/-- `_parse_forwarded_host`: first comma-separated entry of `X-Forwarded-Host`,
right-stripped at the comma cut, then stripped; empty results become `None`. -/
def _parse_forwarded_host (forwarded_host : Option String) : Option String :=
  match forwarded_host with
  | none => none
  | some s =>
    if s == "" then none
    else
      let s1 := if s.data.contains ',' then String.mk (rstripL (s.data.takeWhile (fun c => c != ','))) else s
      let s2 := pyStrip s1
      if s2 == "" then none else some s2

/-- `get_canonical_url`: start from the direct URL's components; when the
proxy is trusted, let `X-Forwarded-Proto` / `X-Forwarded-Host` /
`X-Forwarded-Prefix` override scheme, netloc and path; reassemble with an
empty fragment. -/
def get_canonical_url (r : Request) : String :=
  let parsed := r.url
  let scheme := parsed.scheme
  let netloc := parsed.netloc
  let path := parsed.path
  let resolved :=
    if _should_trust_proxy r then
      let scheme1 :=
        match headersGet r.headers "x-forwarded-proto" with
        | some fp => if fp == "" then scheme else strLower (pyStrip fp)
        | none => scheme
      let netloc1 :=
        match _parse_forwarded_host (headersGet r.headers "x-forwarded-host") with
        | some h => h
        | none => netloc
      let fwdPref := pyStrip ((headersGet r.headers "x-forwarded-prefix").getD "")
      let path1 := if fwdPref != "" then rstripSlashes fwdPref ++ path else path
      (scheme1, netloc1, path1)
    else
      (scheme, netloc, path)
  urlunparse resolved.1 resolved.2.1 resolved.2.2 parsed.params parsed.query ""

/-! ## Claim values and dictionaries

Token claim sets hold strings, integers and nested objects (`cnf`).
Python dict assignment keeps the position of an existing key and appends new
keys; `setdefault` only appends when the key is absent. -/

/-- A Python value as it appears in a JWT claim set. -/
inductive PyVal where
  | s : String → PyVal
  | i : Int → PyVal
  | d : List (String × PyVal) → PyVal

/-- A Python dict with string keys, as an insertion-ordered association list. -/
abbrev PyDict := List (String × PyVal)

/-- Python `d[k] = v`: replace in place if the key exists, else append. -/
def dictSet (d : PyDict) (k : String) (v : PyVal) : PyDict :=
  if (d.lookup k).isSome then d.map (fun p => if p.1 = k then (k, v) else p)
  else d ++ [(k, v)]

/-- Python `d.setdefault(k, v)`: append only when the key is absent. -/
def dictSetdefault (d : PyDict) (k : String) (v : PyVal) : PyDict :=
  if (d.lookup k).isSome then d else d ++ [(k, v)]

/-- `validate_scopes` from `utils.py`: the `scope` claim must be a non-empty
(space-delimited) string containing every required scope. A missing or falsy
`scope` claim fails the check. -/
def validate_scopes (claims : PyDict) (required_scopes : List String) : Bool :=
  match claims.lookup "scope" with
  | some (PyVal.s scope_str) =>
    if scope_str == "" then false
    else required_scopes.all (fun req => (pySplitWs scope_str).contains req)
  | _ => false

/-! ## SHA-256 (`hashlib.sha256`), executable over `Nat` mod 2^32 -/

/-- Truncate to a 32-bit word. -/
def w32 (n : Nat) : Nat := n % 4294967296

/-- 32-bit addition. -/
def wadd (a b : Nat) : Nat := w32 (a + b)

/-- 32-bit right rotation. -/
def rotr (x n : Nat) : Nat := w32 ((x >>> n) ||| (x <<< (32 - n)))

/-- 32-bit bitwise complement (for `x < 2^32`). -/
def wnot (x : Nat) : Nat := 4294967295 - x

/-- SHA-256 big sigma 0. -/
def bsig0 (x : Nat) : Nat := rotr x 2 ^^^ rotr x 13 ^^^ rotr x 22

/-- SHA-256 big sigma 1. -/
def bsig1 (x : Nat) : Nat := rotr x 6 ^^^ rotr x 11 ^^^ rotr x 25

/-- SHA-256 small sigma 0. -/
def ssig0 (x : Nat) : Nat := rotr x 7 ^^^ rotr x 18 ^^^ (x >>> 3)

/-- SHA-256 small sigma 1. -/
def ssig1 (x : Nat) : Nat := rotr x 17 ^^^ rotr x 19 ^^^ (x >>> 10)

/-- SHA-256 choice function. -/
def chFn (x y z : Nat) : Nat := (x &&& y) ^^^ (wnot x &&& z)

/-- SHA-256 majority function. -/
def majFn (x y z : Nat) : Nat := (x &&& y) ^^^ (x &&& z) ^^^ (y &&& z)

/-- The eight SHA-256 working registers. -/
structure Sha256State where
  a : Nat
  b : Nat
  c : Nat
  d : Nat
  e : Nat
  f : Nat
  g : Nat
  h : Nat

/-- SHA-256 initial hash value (the eight words of FIPS 180-4, in decimal). -/
def sha256Init : Sha256State :=
  ⟨1779033703, 3144134277, 1013904242, 2773480762,
   1359893119, 2600822924, 528734635, 1541459225⟩

/-- The 64 SHA-256 round constants of FIPS 180-4, in decimal. -/
def sha256K : List Nat :=
  [1116352408, 1899447441, 3049323471, 3921009573, 961987163,
   1508970993, 2453635748, 2870763221, 3624381080, 310598401,
   607225278, 1426881987, 1925078388, 2162078206, 2614888103,
   3248222580, 3835390401, 4022224774, 264347078, 604807628,
   770255983, 1249150122, 1555081692, 1996064986, 2554220882,
   2821834349, 2952996808, 3210313671, 3336571891, 3584528711,
   113926993, 338241895, 666307205, 773529912, 1294757372,
   1396182291, 1695183700, 1986661051, 2177026350, 2456956037,
   2730485921, 2820302411, 3259730800, 3345764771, 3516065817,
   3600352804, 4094571909, 275423344, 430227734, 506948616,
   659060556, 883997877, 958139571, 1322822218, 1537002063,
   1747873779, 1955562222, 2024104815, 2227730452, 2361852424,
   2428436474, 2756734187, 3204031479, 3329325298]

/-- One SHA-256 compression round: state times (round constant, schedule word). -/
def compressStep (st : Sha256State) (kw : Nat × Nat) : Sha256State :=
  let t1 := w32 (st.h + bsig1 st.e + chFn st.e st.f st.g + kw.1 + kw.2)
  let t2 := w32 (bsig0 st.a + majFn st.a st.b st.c)
  ⟨wadd t1 t2, st.a, st.b, st.c, wadd st.d t1, st.e, st.f, st.g⟩

/-- Extend the 16-word message schedule by `n` more words; `r` is the schedule
built so far, most recent word first. -/
def schedAux : Nat → List Nat → List Nat
  | 0, r => r.reverse
  | n + 1, r =>
    let g := fun (k : Nat) => r.getD (k - 1) 0
    schedAux n (w32 (ssig1 (g 2) + g 7 + ssig0 (g 15) + g 16) :: r)

/-- Full 64-word message schedule from a 16-word chunk. -/
def msgSchedule (ws : List Nat) : List Nat := schedAux 48 ws.reverse

/-- Big-endian bytes to 32-bit words, four at a time. -/
def bytesToWords : List Nat → List Nat
  | b0 :: b1 :: b2 :: b3 :: rest => (((b0 * 256 + b1) * 256 + b2) * 256 + b3) :: bytesToWords rest
  | _ => []

/-- A 32-bit word as four big-endian bytes. -/
def wordToBytes (w : Nat) : List Nat := [w / 16777216 % 256, w / 65536 % 256, w / 256 % 256, w % 256]

/-- SHA-256 padding: `0x80`, zeros to 56 mod 64, then the 64-bit bit length. -/
def sha256pad (m : List Nat) : List Nat :=
  let bitLen := m.length * 8
  let padZeros := (119 - (m.length % 64)) % 64
  m ++ [128] ++ List.replicate padZeros 0 ++
    [bitLen >>> 56 % 256, bitLen >>> 48 % 256, bitLen >>> 40 % 256, bitLen >>> 32 % 256,
     bitLen >>> 24 % 256, bitLen >>> 16 % 256, bitLen >>> 8 % 256, bitLen % 256]

/-- Split a byte list into 64-byte chunks; the fuel argument (the list length
suffices) makes termination structural. -/
def chunksAux : Nat → List Nat → List (List Nat)
  | 0, _ => []
  | _ + 1, [] => []
  | fuel + 1, l => l.take 64 :: chunksAux fuel (l.drop 64)

/-- Compress one 64-byte chunk into the running state. -/
def compressChunk (st : Sha256State) (chunk : List Nat) : Sha256State :=
  let ws := msgSchedule (bytesToWords chunk)
  let t := (sha256K.zip ws).foldl compressStep st
  ⟨wadd st.a t.a, wadd st.b t.b, wadd st.c t.c, wadd st.d t.d,
   wadd st.e t.e, wadd st.f t.f, wadd st.g t.g, wadd st.h t.h⟩

/-- SHA-256 of a byte sequence, as 32 digest bytes. -/
def sha256 (m : List Nat) : List Nat :=
  let padded := sha256pad m
  let st := (chunksAux padded.length padded).foldl compressChunk sha256Init
  wordToBytes st.a ++ wordToBytes st.b ++ wordToBytes st.c ++ wordToBytes st.d ++
  wordToBytes st.e ++ wordToBytes st.f ++ wordToBytes st.g ++ wordToBytes st.h

/-! ## base64url (unpadded) and UTF-8 -/

/-- The URL-safe base64 alphabet. -/
def b64Alphabet : List Char :=
  "ABCDEFGHIJKLMNOPQRSTUVWXYZabcdefghijklmnopqrstuvwxyz0123456789-_".data

/-- Character for a 6-bit group. -/
def b64Char (n : Nat) : Char := b64Alphabet.getD n 'A'

/-- Encode bytes in URL-safe base64; the final partial group is emitted without
`=` padding (the source strips the padding with `rstrip('=')`). -/
def b64urlAux : List Nat → List Char
  | b0 :: b1 :: b2 :: rest =>
    b64Char (b0 / 4) :: b64Char (b0 % 4 * 16 + b1 / 16) ::
    b64Char (b1 % 16 * 4 + b2 / 64) :: b64Char (b2 % 64) :: b64urlAux rest
  | [b0, b1] => [b64Char (b0 / 4), b64Char (b0 % 4 * 16 + b1 / 16), b64Char (b1 % 16 * 4)]
  | [b0] => [b64Char (b0 / 4), b64Char (b0 % 4 * 16)]
  | [] => []

/-- `base64url_encode` from `test_utils.py`: URL-safe base64 without padding. -/
def base64url_encode (data : List Nat) : String := String.mk (b64urlAux data)

/-- UTF-8 encoding of one code point. -/
def utf8Char (c : Char) : List Nat :=
  let n := c.toNat
  if n < 128 then [n]
  else if n < 2048 then [192 + n / 64, 128 + n % 64]
  else if n < 65536 then [224 + n / 4096, 128 + n / 64 % 64, 128 + n % 64]
  else [240 + n / 262144, 128 + n / 4096 % 64, 128 + n / 64 % 64, 128 + n % 64]

/-- Python `str.encode('utf-8')`. -/
def utf8Encode (s : String) : List Nat := s.data.foldr (fun c acc => utf8Char c ++ acc) []

/-! ## json.dumps for string-valued objects (sort_keys=True, separators=(',', ':')) -/

/-- Lower-case hex digit. -/
def hexDigitChar (n : Nat) : Char := "0123456789abcdef".data.getD n '0'

/-- A `\uXXXX` escape. -/
def u16Escape (n : Nat) : List Char :=
  ['\\', 'u', hexDigitChar (n / 4096 % 16), hexDigitChar (n / 256 % 16),
   hexDigitChar (n / 16 % 16), hexDigitChar (n % 16)]

/-- CPython's default (`ensure_ascii`) JSON string escaping of one character:
printable ASCII passes through, `"` and `\` are backslash-escaped, common
control characters get short escapes, everything else becomes `\uXXXX`
(with surrogate pairs beyond the BMP). -/
def jsonEscapeChar (c : Char) : List Char :=
  let n := c.toNat
  if n == 34 then ['\\', '"']
  else if n == 92 then ['\\', '\\']
  else if 32 ≤ n && n ≤ 126 then [c]
  else if n == 8 then ['\\', 'b']
  else if n == 9 then ['\\', 't']
  else if n == 10 then ['\\', 'n']
  else if n == 12 then ['\\', 'f']
  else if n == 13 then ['\\', 'r']
  else if n < 65536 then u16Escape n
  else u16Escape (55296 + (n - 65536) / 1024) ++ u16Escape (56320 + (n - 65536) % 1024)

/-- JSON serialization of a string, quotes included. -/
def jsonQuote (s : String) : String :=
  "\"" ++ String.mk (s.data.foldr (fun c acc => jsonEscapeChar c ++ acc) []) ++ "\""

/-- Python string order (code-point lexicographic), as used by `sorted`. -/
def strLtB : List Char → List Char → Bool
  | [], [] => false
  | [], _ :: _ => true
  | _ :: _, [] => false
  | x :: xs, y :: ys =>
    if x.toNat < y.toNat then true
    else if y.toNat < x.toNat then false
    else strLtB xs ys

/-- Insert an entry into a key-sorted list (stable insertion sort step). -/
def insertByKey (p : String × String) : List (String × String) → List (String × String)
  | [] => [p]
  | q :: rest => if strLtB q.1.data p.1.data then q :: insertByKey p rest else p :: q :: rest

/-- Sort entries by key, as `json.dumps(..., sort_keys=True)` does. -/
def sortByKey : List (String × String) → List (String × String)
  | [] => []
  | p :: rest => insertByKey p (sortByKey rest)

/-- Join strings with the `','` item separator (`json.dumps`'s joining). -/
def joinComma : List String → String
  | [] => ""
  | [x] => x
  | x :: rest => x ++ "," ++ joinComma rest

/-- `json.dumps(obj, sort_keys=True, separators=(',', ':'))` for an object
whose values are all strings: sorted keys, no inserted whitespace. -/
def dumpsSortedStrObj (d : List (String × String)) : String :=
  "\x7b" ++ joinComma ((sortByKey d).map (fun p => jsonQuote p.1 ++ ":" ++ jsonQuote p.2)) ++ "\x7d"

/-! ## JWK thumbprint (`test_utils.calculate_jwk_thumbprint`) -/

/-- A JWK as a string-keyed, string-valued Python dict. -/
abbrev Jwk := List (String × String)

/-- `calculate_jwk_thumbprint`: build the dict `{crv, kty, x, y}` from the
input key (a missing field is a `KeyError`, modelled as `none`), serialize it
canonically, hash with SHA-256 and base64url-encode without padding. -/
def calculate_jwk_thumbprint (jwk_dict : Jwk) : Option String :=
  match jwk_dict.lookup "crv", jwk_dict.lookup "kty", jwk_dict.lookup "x", jwk_dict.lookup "y" with
  | some c, some k, some xv, some yv =>
    some (base64url_encode (sha256 (utf8Encode
      (dumpsSortedStrObj [("crv", c), ("kty", k), ("x", xv), ("y", yv)]))))
  | _, _, _, _ => none

/-- The module-level private EC P-256 JWK from `test_utils.py`, in source
field order. -/
def PRIVATE_DPOP_JWK : Jwk :=
  [("kty", "EC"), ("alg", "ES256"), ("use", "sig"), ("kid", "DPOP_TEST_KEY"),
   ("crv", "P-256"),
   ("x", "WKn-ZIGevcwGIyyrzFoZNBdaq9_TsqzGHwHitJBcBmXdA_x4ySJOjY_1WykDKVf_"),
   ("y", "Hkwp7nOHFcFancWLb-AmIYhZaUO_6-DoV0oNNXLgr-M"),
   ("d", "Hndv7ZZjs_ke8o9zXYo3iq-Yr8SewI5vrqd0pAvqPqg")]

/-- The public counterpart (`PUBLIC_DPOP_JWK`), without `d`. -/
def PUBLIC_DPOP_JWK : Jwk :=
  [("kty", "EC"), ("alg", "ES256"), ("use", "sig"), ("kid", "DPOP_TEST_KEY"),
   ("crv", "P-256"),
   ("x", "WKn-ZIGevcwGIyyrzFoZNBdaq9_TsqzGHwHitJBcBmXdA_x4ySJOjY_1WykDKVf_"),
   ("y", "Hkwp7nOHFcFancWLb-AmIYhZaUO_6-DoV0oNNXLgr-M")]

/-- The thumbprint of the module key, as used for `cnf.jkt` (total by
construction: the key has all four fields). -/
def jktPrivateDpop : String := (calculate_jwk_thumbprint PRIVATE_DPOP_JWK).getD ""

/-- Spec-side canonical serialization, following the specification's words:
exactly the four fields crv, kty, x, y, keys in sorted (lexicographic) order,
no inserted whitespace. -/
def specCanonicalEcJson (c k xv yv : String) : String :=
  "\x7b" ++ jsonQuote "crv" ++ ":" ++ jsonQuote c ++ "," ++ jsonQuote "kty" ++ ":" ++ jsonQuote k ++
  "," ++ jsonQuote "x" ++ ":" ++ jsonQuote xv ++ "," ++ jsonQuote "y" ++ ":" ++ jsonQuote yv ++ "\x7d"

/-- Spec-side thumbprint: unpadded base64url of SHA-256 of the UTF-8 canonical
JSON. -/
def specThumbprint (c k xv yv : String) : String :=
  base64url_encode (sha256 (utf8Encode (specCanonicalEcJson c k xv yv)))

/-! ## Token claim construction (`test_utils.generate_token`,
`test_utils.generate_dpop_bound_token`)

Only the claim-set construction is modelled; the final `jwt.encode` signing
step is the external `authlib` library and does not alter the claim set.
`time.time()` is modelled by an explicit `now` argument. -/

/-- The `issuer: Union[str, bool, None]` parameter: a tri-state (plus the
unused literal `True`, which the code treats like `None`). -/
inductive IssuerArg where
  | noneA : IssuerArg
  | falseA : IssuerArg
  | trueA : IssuerArg
  | strA : String → IssuerArg

/-- The claim dict built by `generate_token` (lines 81–99 of
`test_utils.py`): copy the extra claims, `setdefault` the subject, then
conditionally set `iat`, `exp`, `iss`, `aud` and (for `token_type="dpop"`)
`cnf`. -/
def generate_token_claims (domain user_id : String) (audience : Option String)
    (issuer : IssuerArg) (iat exp : Bool) (claims : Option PyDict)
    (now expiration_time : Nat) (token_type : String) : PyDict :=
  let t0 := claims.getD []
  let t1 := dictSetdefault t0 "sub" (PyVal.s user_id)
  let t2 := if iat then dictSet t1 "iat" (PyVal.i now) else t1
  let t3 := if exp then dictSet t2 "exp" (PyVal.i (now + expiration_time)) else t2
  let t4 :=
    match issuer with
    | IssuerArg.falseA => t3
    | IssuerArg.strA s => dictSet t3 "iss" (PyVal.s s)
    | _ => dictSet t3 "iss" (PyVal.s ("https://" ++ domain ++ "/"))
  let t5 :=
    match audience with
    | some a => if a == "" then t4 else dictSet t4 "aud" (PyVal.s a)
    | none => t4
  if token_type == "dpop" then dictSet t5 "cnf" (PyVal.d [("jkt", PyVal.s jktPrivateDpop)]) else t5

/-- The claim dict built by `generate_dpop_bound_token` (lines 221–242):
identical to `generate_token_claims` except that `cnf.jkt` is always set,
either to the supplied thumbprint or to the module key's. -/
def generate_dpop_bound_token_claims (domain user_id : String) (audience : Option String)
    (issuer : IssuerArg) (iat exp : Bool) (claims : Option PyDict)
    (now expiration_time : Nat) (cnf_jkt : Option String) : PyDict :=
  let t0 := claims.getD []
  let t1 := dictSetdefault t0 "sub" (PyVal.s user_id)
  let t2 := if iat then dictSet t1 "iat" (PyVal.i now) else t1
  let t3 := if exp then dictSet t2 "exp" (PyVal.i (now + expiration_time)) else t2
  let t4 :=
    match issuer with
    | IssuerArg.falseA => t3
    | IssuerArg.strA s => dictSet t3 "iss" (PyVal.s s)
    | _ => dictSet t3 "iss" (PyVal.s ("https://" ++ domain ++ "/"))
  let t5 :=
    match audience with
    | some a => if a == "" then t4 else dictSet t4 "aud" (PyVal.s a)
    | none => t4
  let jkt := match cnf_jkt with | some j => j | none => jktPrivateDpop
  dictSet t5 "cnf" (PyVal.d [("jkt", PyVal.s jkt)])

/-! ## The `require_auth` dependency (`fast_api_client.py`) -/

/-- The `HTTPException` raised by `utils.http_exception`: status code plus the
structured detail body and challenge headers. -/
structure HTTPExceptionModel where
  status_code : Nat
  error : String
  error_description : String
  headers : List (String × String)
deriving DecidableEq

/-- `http_exception` from `utils.py` (`headers or {}` for the default). -/
def http_exception (status_code : Nat) (error error_desc : String)
    (headers : Option (List (String × String))) : HTTPExceptionModel :=
  ⟨status_code, error, error_desc, headers.getD []⟩

/-- Outcome of the awaited `api_client.verify_request(...)` call: verified
claims, a structured `BaseAuthError` (status, code, description, headers), or
any other raised exception carrying its `str(e)` message. -/
inductive VerifyOutcome where
  | verified : PyDict → VerifyOutcome
  | authError : Nat → String → String → List (String × String) → VerifyOutcome
  | unexpectedError : String → VerifyOutcome

/-- The `scopes: Optional[Union[str, List[str]]]` parameter of
`require_auth`. -/
inductive ScopesArg where
  | noneS : ScopesArg
  | strS : String → ScopesArg
  | listS : List String → ScopesArg

/-- Python truthiness of the `scopes` argument (`if scopes:`). -/
def scopesTruthy : ScopesArg → Bool
  | ScopesArg.noneS => false
  | ScopesArg.strS s => !(s == "")
  | ScopesArg.listS l => !l.isEmpty

/-- `required_scopes = [scopes] if isinstance(scopes, str) else scopes`. -/
def requiredScopes : ScopesArg → List String
  | ScopesArg.noneS => []
  | ScopesArg.strS s => [s]
  | ScopesArg.listS l => l

/-- The body of the `_dependency` closure returned by
`Auth0FastAPI.require_auth`: map verification failures to `HTTPException`s
(structured errors keep their data; any other exception becomes a 400
`invalid_request` with `str(e)` as the description), then enforce scopes with
a 403 `insufficient_scope`, else return the claims. -/
def require_auth_dependency (scopes : ScopesArg) (outcome : VerifyOutcome) :
    Except HTTPExceptionModel PyDict :=
  match outcome with
  | VerifyOutcome.authError st code desc hdrs => Except.error (http_exception st code desc (some hdrs))
  | VerifyOutcome.unexpectedError msg => Except.error (http_exception 400 "invalid_request" msg none)
  | VerifyOutcome.verified claims =>
    if scopesTruthy scopes then
      if validate_scopes claims (requiredScopes scopes) then Except.ok claims
      else Except.error (http_exception 403 "insufficient_scope" "Insufficient scopes" none)
    else Except.ok claims

/-! ## Spec-side definitions (from the specification's words, for refinement
statements) -/

/-- Spec-side forwarded-host parsing: "split on the first comma, take the
left-hand segment, trim whitespace; use it verbatim as the new host. Empty
result after trimming is treated as absent." -/
def forwardedHostSpec (s : String) : Option String :=
  let left := pyStrip (String.mk (s.data.takeWhile (fun c => c != ',')))
  if left == "" then none else some left

/-- The scheme `get_canonical_url` resolves under trust: the code's
`X-Forwarded-Proto` rule, factored out so theorems about one header can leave
the others arbitrary. -/
def fwdSchemeRes (hs : Headers) (direct : String) : String :=
  match headersGet hs "x-forwarded-proto" with
  | some fp => if fp == "" then direct else strLower (pyStrip fp)
  | none => direct

/-- The netloc `get_canonical_url` resolves under trust. -/
def fwdHostRes (hs : Headers) (direct : String) : String :=
  match _parse_forwarded_host (headersGet hs "x-forwarded-host") with
  | some h => h
  | none => direct

/-- The path `get_canonical_url` resolves under trust. -/
def fwdPathRes (hs : Headers) (direct : String) : String :=
  let f := pyStrip ((headersGet hs "x-forwarded-prefix").getD "")
  if f != "" then rstripSlashes f ++ direct else direct

/-! ## Helper lemmas -/

/-- Dropping while a predicate holds is idempotent. -/
theorem dropWhile_dropWhile (p : Char → Bool) (l : List Char) :
    (l.dropWhile p).dropWhile p = l.dropWhile p := by
  induction l with
  | nil => rfl
  | cons a l ih =>
    by_cases h : p a
    · simp [List.dropWhile_cons, h, ih]
    · simp [List.dropWhile_cons, h]

/-- `str.rstrip()` is idempotent. -/
theorem rstripL_idem (l : List Char) : rstripL (rstripL l) = rstripL l := by
  simp [rstripL, List.reverse_reverse, dropWhile_dropWhile]

/-- On a comma-free list, taking up to the first comma is the identity. -/
theorem takeWhile_all (l : List Char) (h : l.contains ',' = false) :
    l.takeWhile (fun c => c != ',') = l := by
  induction l with
  | nil => rfl
  | cons a t ih =>
    simp only [List.contains_cons, Bool.or_eq_false_iff] at h
    have ha : (a == ',') = false := by
      cases hb : a == ','
      · rfl
      · exact absurd (by rw [eq_of_beq hb] : (',' == a) = (',' == ',')).symm (by simp [h.1])
    have hbne : (a != ',') = true := by simp [bne, ha]
    simp only [List.takeWhile_cons, hbne]
    simp [ih h.2]

/-- Association-list lookup skips a prefix that misses the key. -/
theorem lookup_append_none {β : Type} (l1 l2 : List (String × β)) (k : String)
    (h : l1.lookup k = none) : (l1 ++ l2).lookup k = l2.lookup k := by
  induction l1 with
  | nil => rfl
  | cons p t ih =>
    obtain ⟨pk, pv⟩ := p
    cases hk : k == pk
    · simp only [List.cons_append, List.lookup_cons, hk] at h ⊢
      exact ih h
    · simp only [List.lookup_cons, hk] at h
      cases h

/-- Association-list lookup is decided by a prefix that hits the key. -/
theorem lookup_append_some {β : Type} (l1 l2 : List (String × β)) (k : String) (w : β)
    (h : l1.lookup k = some w) : (l1 ++ l2).lookup k = some w := by
  induction l1 with
  | nil => cases h
  | cons p t ih =>
    obtain ⟨pk, pv⟩ := p
    cases hk : k == pk
    · simp only [List.cons_append, List.lookup_cons, hk] at h ⊢
      exact ih h
    · simp only [List.cons_append, List.lookup_cons, hk] at h ⊢
      exact h

/-- Python's source `_parse_forwarded_host` agrees with the specification's
description of forwarded-host parsing, for every header value. -/
theorem parse_forwarded_host_eq_spec (s : String) :
    _parse_forwarded_host (some s) = forwardedHostSpec s := by
  obtain ⟨sd⟩ := s
  unfold _parse_forwarded_host forwardedHostSpec
  by_cases hs : String.mk sd = ""
  · have hnil : sd = [] := by
      have h2 : sd = (String.mk sd).data := rfl
      rw [hs] at h2
      exact h2
    subst hnil
    rfl
  · have hb : (String.mk sd == "") = false := by simp [hs]
    simp only [hb, Bool.false_eq_true, if_false]
    by_cases hc : (String.mk sd).data.contains ',' = true
    · simp only [hc, if_true]
      have key : pyStrip (String.mk (rstripL ((String.mk sd).data.takeWhile (fun c => c != ',')))) =
          pyStrip (String.mk ((String.mk sd).data.takeWhile (fun c => c != ','))) := by
        simp [pyStrip, rstripL_idem]
      rw [key]
    · have hc' : (String.mk sd).data.contains ',' = false := by
        cases h2 : (String.mk sd).data.contains ','
        · rfl
        · exact absurd h2 hc
      simp only [hc', Bool.false_eq_true, if_false]
      rw [takeWhile_all _ hc']

/-- In-place replacement hits the key when it was present. -/
theorem lookup_map_set (d : PyDict) (k : String) (v : PyVal) :
    (d.lookup k).isSome = true →
    (d.map (fun p => if p.1 = k then (k, v) else p)).lookup k = some v := by
  induction d with
  | nil => intro h; simp at h
  | cons p t ih =>
    intro h
    obtain ⟨pk, pv⟩ := p
    by_cases hpk : pk = k
    · subst hpk
      simp [List.lookup_cons]
    · have hkpk : (k == pk) = false := by simp [Ne.symm hpk]
      simp only [List.map_cons, if_neg hpk, List.lookup_cons, hkpk] at h ⊢
      exact ih h

/-- In-place replacement of one key leaves other keys' lookups unchanged. -/
theorem lookup_map_set_ne (d : PyDict) (k : String) (v : PyVal) (k' : String) (hne : k' ≠ k) :
    (d.map (fun p => if p.1 = k then (k, v) else p)).lookup k' = d.lookup k' := by
  induction d with
  | nil => rfl
  | cons p t ih =>
    obtain ⟨pk, pv⟩ := p
    by_cases hpk : pk = k
    · subst hpk
      have h1 : (k' == pk) = false := by simp [hne]
      simp [List.lookup_cons, h1, ih]
    · simp only [List.map_cons, if_neg hpk, List.lookup_cons]
      cases hk : k' == pk
      · exact ih
      · rfl

/-- Python dict assignment: the assigned key reads back the new value. -/
theorem dictSet_lookup_self (d : PyDict) (k : String) (v : PyVal) :
    (dictSet d k v).lookup k = some v := by
  unfold dictSet
  cases hl : d.lookup k with
  | some w =>
    have h : (d.lookup k).isSome = true := by rw [hl]; rfl
    simp only [hl, Option.isSome_some, if_true]
    exact lookup_map_set d k v h
  | none =>
    simp only [hl, Option.isSome_none, Bool.false_eq_true, if_false]
    rw [lookup_append_none _ _ _ hl]
    simp [List.lookup_cons]

/-- Python dict assignment: other keys read back unchanged. -/
theorem dictSet_lookup_ne (d : PyDict) (k : String) (v : PyVal) (k' : String) (hne : k' ≠ k) :
    (dictSet d k v).lookup k' = d.lookup k' := by
  unfold dictSet
  cases hl : d.lookup k with
  | some w =>
    simp only [hl, Option.isSome_some, if_true]
    exact lookup_map_set_ne d k v k' hne
  | none =>
    simp only [hl, Option.isSome_none, Bool.false_eq_true, if_false]
    cases hl' : d.lookup k' with
    | some w => exact lookup_append_some _ _ _ _ hl'
    | none =>
      have hb : (k' == k) = false := by simp [hne]
      rw [lookup_append_none _ _ _ hl']
      simp [List.lookup_cons, hb]

/-- `setdefault` on an absent key stores the default. -/
theorem dictSetdefault_lookup_none (d : PyDict) (k : String) (v : PyVal)
    (h : d.lookup k = none) : (dictSetdefault d k v).lookup k = some v := by
  unfold dictSetdefault
  simp only [h, Option.isSome_none, Bool.false_eq_true, if_false]
  rw [lookup_append_none _ _ _ h]
  simp [List.lookup_cons]

/-- `setdefault` on a present key keeps the existing value. -/
theorem dictSetdefault_lookup_some (d : PyDict) (k : String) (v w : PyVal)
    (h : d.lookup k = some w) : (dictSetdefault d k v).lookup k = some w := by
  unfold dictSetdefault
  simp only [h, Option.isSome_some, if_true]

/-- `setdefault` leaves other keys' lookups unchanged. -/
theorem dictSetdefault_lookup_ne (d : PyDict) (k : String) (v : PyVal) (k' : String)
    (hne : k' ≠ k) : (dictSetdefault d k v).lookup k' = d.lookup k' := by
  unfold dictSetdefault
  cases hl : d.lookup k with
  | some w => simp only [hl, Option.isSome_some, if_true]
  | none =>
    simp only [hl, Option.isSome_none, Bool.false_eq_true, if_false]
    cases hl' : d.lookup k' with
    | some w => exact lookup_append_some _ _ _ _ hl'
    | none =>
      have hb : (k' == k) = false := by simp [hne]
      rw [lookup_append_none _ _ _ hl']
      simp [List.lookup_cons, hb]

/-- The code's sorted-keys JSON dump of the four-field EC dict equals the
specification's canonical serialization, for all field values. -/
theorem dumps_four (c k xv yv : String) :
    dumpsSortedStrObj [("crv", c), ("kty", k), ("x", xv), ("y", yv)] =
      specCanonicalEcJson c k xv yv := by
  have hsort : sortByKey [("crv", c), ("kty", k), ("x", xv), ("y", yv)] =
      [("crv", c), ("kty", k), ("x", xv), ("y", yv)] := rfl
  apply String.ext
  simp [dumpsSortedStrObj, hsort, joinComma, specCanonicalEcJson, String.data_append,
    List.append_assoc]

/-! ## Claim theorems -/

/-- C1: with the trust policy disabled (`trust_proxy = False`),
`get_canonical_url` returns the direct request URL with the fragment dropped,
and the result is identical for any two requests that differ only in their
headers — in particular in the values of `X-Forwarded-Proto`,
`X-Forwarded-Host` and `X-Forwarded-Prefix`; forwarded headers have no
influence when trust is off. -/
theorem canonical_url_trust_disabled_direct (u : UrlParts) (h1 h2 : Headers) :
    get_canonical_url ⟨u, h1, false⟩ = directUrl (dropFragment u) ∧
    get_canonical_url ⟨u, h1, false⟩ = get_canonical_url ⟨u, h2, false⟩ :=
  ⟨rfl, rfl⟩

/-- C2 counterexample: with trust enabled and `X-Forwarded-Prefix: /../admin`
(a `..` traversal segment), the code still prepends the prefix — the canonical
URL is `http://testserver/../admin/test`, not the direct URL with unchanged
path that the claim requires. -/
theorem canonical_url_traversal_prefix_not_rejected :
    get_canonical_url ⟨⟨"http", "testserver", "/test", "", "", ""⟩,
      [("x-forwarded-prefix", "/../admin")], true⟩ = "http://testserver/../admin/test" ∧
    get_canonical_url ⟨⟨"http", "testserver", "/test", "", "", ""⟩,
      [("x-forwarded-prefix", "/../admin")], true⟩ ≠
      urlunparse "http" "testserver" "/test" "" "" "" :=
  ⟨rfl, by decide⟩

/-- C2 amended: with proxy trust enabled, every `X-Forwarded-Prefix` value
that is non-empty after trimming is prepended to the direct path after
stripping trailing slashes, with no sanitization whatsoever: `..` traversal
segments, leading double slashes, colons, null bytes and `%2e%2e` sequences
are all accepted, and no leading slash is enforced. An all-whitespace or
absent prefix leaves the path unchanged. -/
theorem canonical_url_prefix_prepended_unsanitized (u : UrlParts) (hs : Headers) (pref : String)
    (h : headersGet hs "x-forwarded-prefix" = some pref) :
    get_canonical_url ⟨u, hs, true⟩ =
      urlunparse (fwdSchemeRes hs u.scheme) (fwdHostRes hs u.netloc)
        (if pyStrip pref = "" then u.path else rstripSlashes (pyStrip pref) ++ u.path)
        u.params u.query "" := by
  have base : get_canonical_url ⟨u, hs, true⟩ =
      urlunparse (fwdSchemeRes hs u.scheme) (fwdHostRes hs u.netloc) (fwdPathRes hs u.path)
        u.params u.query "" := rfl
  have hp : fwdPathRes hs u.path =
      if pyStrip pref = "" then u.path else rstripSlashes (pyStrip pref) ++ u.path := by
    unfold fwdPathRes
    rw [h]
    by_cases he : pyStrip pref = "" <;> simp [he, Option.getD_some, bne]
  rw [base, hp]

/-- C2 amended, witness: the trailing-slash prefix `/api/v1/` from the
repository's reverse-proxy test, prepended to `/test`. -/
theorem canonical_url_prefix_prepended_unsanitized_witness :
    headersGet [("x-forwarded-prefix", "/api/v1/")] "x-forwarded-prefix" = some "/api/v1/" ∧
    get_canonical_url ⟨⟨"https", "api.example.com", "/test", "", "", ""⟩,
        [("x-forwarded-prefix", "/api/v1/")], true⟩ =
      urlunparse (fwdSchemeRes [("x-forwarded-prefix", "/api/v1/")] "https")
        (fwdHostRes [("x-forwarded-prefix", "/api/v1/")] "api.example.com")
        (if pyStrip "/api/v1/" = "" then "/test" else rstripSlashes (pyStrip "/api/v1/") ++ "/test")
        "" "" "" :=
  ⟨rfl, canonical_url_prefix_prepended_unsanitized
    ⟨"https", "api.example.com", "/test", "", "", ""⟩
    [("x-forwarded-prefix", "/api/v1/")] "/api/v1/" rfl⟩

/-- C3 counterexample: with trust enabled and `X-Forwarded-Proto: ftp` — a
value outside {http, https} — the code adopts the forwarded scheme instead of
keeping the direct one: the canonical URL is `ftp://testserver/test`, not the
direct `http://testserver/test` the claim requires. -/
theorem canonical_url_proto_whitelist_missing :
    get_canonical_url ⟨⟨"http", "testserver", "/test", "", "", ""⟩,
      [("x-forwarded-proto", "ftp")], true⟩ = "ftp://testserver/test" ∧
    get_canonical_url ⟨⟨"http", "testserver", "/test", "", "", ""⟩,
      [("x-forwarded-proto", "ftp")], true⟩ ≠
      urlunparse "http" "testserver" "/test" "" "" "" :=
  ⟨rfl, by decide⟩

/-- C3 amended: with proxy trust enabled, every non-empty `X-Forwarded-Proto`
header value sets the canonical scheme to its trimmed, lower-cased value —
there is no http/https whitelist; arbitrary schemes are adopted verbatim. -/
theorem canonical_url_proto_any_nonempty (u : UrlParts) (hs : Headers) (fp : String)
    (h : headersGet hs "x-forwarded-proto" = some fp) (hne : fp ≠ "") :
    get_canonical_url ⟨u, hs, true⟩ =
      urlunparse (strLower (pyStrip fp)) (fwdHostRes hs u.netloc) (fwdPathRes hs u.path)
        u.params u.query "" := by
  have base : get_canonical_url ⟨u, hs, true⟩ =
      urlunparse (fwdSchemeRes hs u.scheme) (fwdHostRes hs u.netloc) (fwdPathRes hs u.path)
        u.params u.query "" := rfl
  have hsch : fwdSchemeRes hs u.scheme = strLower (pyStrip fp) := by
    unfold fwdSchemeRes
    rw [h]
    simp [hne]
  rw [base, hsch]

/-- C3 amended, witness: the non-http scheme `ftp` is adopted. -/
theorem canonical_url_proto_any_nonempty_witness :
    headersGet [("x-forwarded-proto", "ftp")] "x-forwarded-proto" = some "ftp" ∧
    ("ftp" : String) ≠ "" ∧
    get_canonical_url ⟨⟨"http", "testserver", "/test", "", "", ""⟩,
        [("x-forwarded-proto", "ftp")], true⟩ =
      urlunparse (strLower (pyStrip "ftp"))
        (fwdHostRes [("x-forwarded-proto", "ftp")] "testserver")
        (fwdPathRes [("x-forwarded-proto", "ftp")] "/test") "" "" "" :=
  ⟨rfl, by decide, canonical_url_proto_any_nonempty
    ⟨"http", "testserver", "/test", "", "", ""⟩ [("x-forwarded-proto", "ftp")] "ftp" rfl (by decide)⟩

/-- C4: with proxy trust enabled, the forwarded host is the substring left of
the first comma (the whole value when there is no comma), trimmed, used
verbatim; an empty result after trimming is treated as absent so the direct
host is kept. Concretely, `a.com, b.internal, c.internal` yields host `a.com`
in the canonical URL, and a whitespace-only header keeps the direct netloc. -/
theorem forwarded_host_first_comma_segment :
    (∀ s : String, _parse_forwarded_host (some s) = forwardedHostSpec s) ∧
    _parse_forwarded_host none = none ∧
    _parse_forwarded_host (some "a.com, b.internal, c.internal") = some "a.com" ∧
    (∀ u : UrlParts,
      get_canonical_url ⟨u, [("x-forwarded-host", "a.com, b.internal, c.internal")], true⟩ =
        urlunparse u.scheme "a.com" u.path u.params u.query "") ∧
    (∀ u : UrlParts,
      get_canonical_url ⟨u, [("x-forwarded-host", "   ")], true⟩ =
        urlunparse u.scheme u.netloc u.path u.params u.query "") :=
  ⟨parse_forwarded_host_eq_spec, rfl, rfl, fun _ => rfl, fun _ => rfl⟩

/-- C5: for every EC key with `crv`, `kty`, `x`, `y` fields, the thumbprint is
the unpadded base64url SHA-256 of the canonical JSON of exactly those four
fields, keys sorted, no whitespace (`specThumbprint` spells that serialization
out letter by letter); and the result depends only on those four field values,
so permuting the input's field order or adding extra fields (`alg`, `use`,
`kid`, `d`) cannot change it. Determinism is definitional: the computation is
a pure function of the key. -/
theorem jwk_thumbprint_canonical (jwk : Jwk) (c k xv yv : String)
    (hc : jwk.lookup "crv" = some c) (hk : jwk.lookup "kty" = some k)
    (hx : jwk.lookup "x" = some xv) (hy : jwk.lookup "y" = some yv) :
    calculate_jwk_thumbprint jwk = some (specThumbprint c k xv yv) ∧
    ∀ jwk2 : Jwk, jwk2.lookup "crv" = some c → jwk2.lookup "kty" = some k →
      jwk2.lookup "x" = some xv → jwk2.lookup "y" = some yv →
      calculate_jwk_thumbprint jwk2 = calculate_jwk_thumbprint jwk := by
  have h1 : calculate_jwk_thumbprint jwk = some (specThumbprint c k xv yv) := by
    unfold calculate_jwk_thumbprint
    simp only [hc, hk, hx, hy]
    simp [specThumbprint, dumps_four]
  refine ⟨h1, fun jwk2 h2c h2k h2x h2y => ?_⟩
  have h2 : calculate_jwk_thumbprint jwk2 = some (specThumbprint c k xv yv) := by
    unfold calculate_jwk_thumbprint
    simp only [h2c, h2k, h2x, h2y]
    simp [specThumbprint, dumps_four]
  rw [h1, h2]

/-- C5 witness: the module's EC key; the public variant (different field set,
no `d`) yields the identical thumbprint. -/
theorem jwk_thumbprint_canonical_witness :
    PRIVATE_DPOP_JWK.lookup "crv" = some "P-256" ∧
    PRIVATE_DPOP_JWK.lookup "kty" = some "EC" ∧
    PRIVATE_DPOP_JWK.lookup "x" =
      some "WKn-ZIGevcwGIyyrzFoZNBdaq9_TsqzGHwHitJBcBmXdA_x4ySJOjY_1WykDKVf_" ∧
    PRIVATE_DPOP_JWK.lookup "y" = some "Hkwp7nOHFcFancWLb-AmIYhZaUO_6-DoV0oNNXLgr-M" ∧
    calculate_jwk_thumbprint PRIVATE_DPOP_JWK =
      some (specThumbprint "P-256" "EC"
        "WKn-ZIGevcwGIyyrzFoZNBdaq9_TsqzGHwHitJBcBmXdA_x4ySJOjY_1WykDKVf_"
        "Hkwp7nOHFcFancWLb-AmIYhZaUO_6-DoV0oNNXLgr-M") ∧
    calculate_jwk_thumbprint PUBLIC_DPOP_JWK = calculate_jwk_thumbprint PRIVATE_DPOP_JWK :=
  ⟨rfl, rfl, rfl, rfl,
   (jwk_thumbprint_canonical PRIVATE_DPOP_JWK "P-256" "EC"
      "WKn-ZIGevcwGIyyrzFoZNBdaq9_TsqzGHwHitJBcBmXdA_x4ySJOjY_1WykDKVf_"
      "Hkwp7nOHFcFancWLb-AmIYhZaUO_6-DoV0oNNXLgr-M" rfl rfl rfl rfl).1,
   (jwk_thumbprint_canonical PRIVATE_DPOP_JWK "P-256" "EC"
      "WKn-ZIGevcwGIyyrzFoZNBdaq9_TsqzGHwHitJBcBmXdA_x4ySJOjY_1WykDKVf_"
      "Hkwp7nOHFcFancWLb-AmIYhZaUO_6-DoV0oNNXLgr-M" rfl rfl rfl rfl).2
     PUBLIC_DPOP_JWK rfl rfl rfl rfl⟩

/-- C6 counterexample: the encoder uses `setdefault`, so when the extra
claims already carry `sub: "attacker"`, the token's `sub` stays `"attacker"`
and is not forced to the subject argument `"user_123"`. -/
theorem generate_token_sub_not_forced :
    (generate_token_claims "auth0.local" "user_123" none IssuerArg.noneA false false
      (some [("sub", PyVal.s "attacker")]) 0 3600 "bearer").lookup "sub" =
      some (PyVal.s "attacker") ∧
    (generate_token_claims "auth0.local" "user_123" none IssuerArg.noneA false false
      (some [("sub", PyVal.s "attacker")]) 0 3600 "bearer").lookup "sub" ≠
      some (PyVal.s "user_123") := by
  constructor
  · rfl
  · intro h
    have h2 : some (PyVal.s "attacker") = some (PyVal.s "user_123") := h
    injection h2 with h3
    injection h3 with h4
    exact absurd h4 (by decide)

/-- C6 amended: the extra-claims mapping is merged first and `sub` is then
set only if absent (`setdefault`): the token's `sub` equals the subject
argument exactly when the extra claims carry no `sub` key; an explicit `sub`
in the extra claims wins. Both token encoders behave this way. -/
theorem generate_token_sub_setdefault (domain user_id : String) (audience : Option String)
    (issuer : IssuerArg) (iat exp : Bool) (claims : Option PyDict) (now et : Nat)
    (tt : String) (cnf_jkt : Option String) :
    ((claims.getD []).lookup "sub" = none →
      (generate_token_claims domain user_id audience issuer iat exp claims now et tt).lookup "sub" =
        some (PyVal.s user_id)) ∧
    (∀ v, (claims.getD []).lookup "sub" = some v →
      (generate_token_claims domain user_id audience issuer iat exp claims now et tt).lookup "sub" =
        some v) ∧
    ((claims.getD []).lookup "sub" = none →
      (generate_dpop_bound_token_claims domain user_id audience issuer iat exp claims now et
        cnf_jkt).lookup "sub" = some (PyVal.s user_id)) ∧
    (∀ v, (claims.getD []).lookup "sub" = some v →
      (generate_dpop_bound_token_claims domain user_id audience issuer iat exp claims now et
        cnf_jkt).lookup "sub" = some v) := by
  refine ⟨?_, ?_, ?_, ?_⟩
  · intro h
    unfold generate_token_claims
    rcases audience with _ | a <;> rcases issuer with _ | _ | _ | s0 <;>
      simp [apply_ite (fun d : PyDict => d.lookup "sub"),
            dictSet_lookup_ne _ "iat" _ "sub" (by decide),
            dictSet_lookup_ne _ "exp" _ "sub" (by decide),
            dictSet_lookup_ne _ "iss" _ "sub" (by decide),
            dictSet_lookup_ne _ "aud" _ "sub" (by decide),
            dictSet_lookup_ne _ "cnf" _ "sub" (by decide),
            dictSetdefault_lookup_none _ _ _ h]
  · intro v hv
    unfold generate_token_claims
    rcases audience with _ | a <;> rcases issuer with _ | _ | _ | s0 <;>
      simp [apply_ite (fun d : PyDict => d.lookup "sub"),
            dictSet_lookup_ne _ "iat" _ "sub" (by decide),
            dictSet_lookup_ne _ "exp" _ "sub" (by decide),
            dictSet_lookup_ne _ "iss" _ "sub" (by decide),
            dictSet_lookup_ne _ "aud" _ "sub" (by decide),
            dictSet_lookup_ne _ "cnf" _ "sub" (by decide),
            dictSetdefault_lookup_some _ _ _ _ hv]
  · intro h
    unfold generate_dpop_bound_token_claims
    rcases audience with _ | a <;> rcases issuer with _ | _ | _ | s0 <;>
      simp [apply_ite (fun d : PyDict => d.lookup "sub"),
            dictSet_lookup_ne _ "iat" _ "sub" (by decide),
            dictSet_lookup_ne _ "exp" _ "sub" (by decide),
            dictSet_lookup_ne _ "iss" _ "sub" (by decide),
            dictSet_lookup_ne _ "aud" _ "sub" (by decide),
            dictSet_lookup_ne _ "cnf" _ "sub" (by decide),
            dictSetdefault_lookup_none _ _ _ h]
  · intro v hv
    unfold generate_dpop_bound_token_claims
    rcases audience with _ | a <;> rcases issuer with _ | _ | _ | s0 <;>
      simp [apply_ite (fun d : PyDict => d.lookup "sub"),
            dictSet_lookup_ne _ "iat" _ "sub" (by decide),
            dictSet_lookup_ne _ "exp" _ "sub" (by decide),
            dictSet_lookup_ne _ "iss" _ "sub" (by decide),
            dictSet_lookup_ne _ "aud" _ "sub" (by decide),
            dictSet_lookup_ne _ "cnf" _ "sub" (by decide),
            dictSetdefault_lookup_some _ _ _ _ hv]

/-- C6 amended, witness: with extra claims lacking `sub`, both encoders set
`sub` to the subject argument. -/
theorem generate_token_sub_setdefault_witness :
    ((some [("role", PyVal.s "admin")] : Option PyDict).getD []).lookup "sub" = none ∧
    (generate_token_claims "auth0.local" "user_123" none IssuerArg.noneA false false
      (some [("role", PyVal.s "admin")]) 0 3600 "bearer").lookup "sub" =
      some (PyVal.s "user_123") ∧
    (generate_dpop_bound_token_claims "auth0.local" "user_123" none IssuerArg.noneA false false
      (some [("role", PyVal.s "admin")]) 0 3600 none).lookup "sub" =
      some (PyVal.s "user_123") :=
  ⟨rfl,
   (generate_token_sub_setdefault "auth0.local" "user_123" none IssuerArg.noneA false false
      (some [("role", PyVal.s "admin")]) 0 3600 "bearer" none).1 rfl,
   (generate_token_sub_setdefault "auth0.local" "user_123" none IssuerArg.noneA false false
      (some [("role", PyVal.s "admin")]) 0 3600 "bearer" none).2.2.1 rfl⟩

/-- C7: the issuer parameter is a tri-state in both token encoders. When it
is the literal `False`, no `iss` claim is added (so the claim set carries no
`iss`, given the extra claims carry none — not an empty string); when it is
omitted (`None`), `iss` is the default "https://" ++ domain ++ "/"; when it
is a string, `iss` is exactly that string. -/
theorem issuer_tristate (domain user_id : String) (audience : Option String)
    (iat exp : Bool) (claims : Option PyDict) (now et : Nat) (tt : String)
    (cnf_jkt : Option String) :
    ((claims.getD []).lookup "iss" = none →
      (generate_token_claims domain user_id audience IssuerArg.falseA iat exp claims now et
        tt).lookup "iss" = none) ∧
    (generate_token_claims domain user_id audience IssuerArg.noneA iat exp claims now et
        tt).lookup "iss" = some (PyVal.s ("https://" ++ domain ++ "/")) ∧
    (∀ s, (generate_token_claims domain user_id audience (IssuerArg.strA s) iat exp claims now et
        tt).lookup "iss" = some (PyVal.s s)) ∧
    ((claims.getD []).lookup "iss" = none →
      (generate_dpop_bound_token_claims domain user_id audience IssuerArg.falseA iat exp claims
        now et cnf_jkt).lookup "iss" = none) ∧
    (generate_dpop_bound_token_claims domain user_id audience IssuerArg.noneA iat exp claims
        now et cnf_jkt).lookup "iss" = some (PyVal.s ("https://" ++ domain ++ "/")) ∧
    (∀ s, (generate_dpop_bound_token_claims domain user_id audience (IssuerArg.strA s) iat exp
        claims now et cnf_jkt).lookup "iss" = some (PyVal.s s)) := by
  refine ⟨?_, ?_, ?_, ?_, ?_, ?_⟩
  · intro h
    unfold generate_token_claims
    rcases audience with _ | a <;>
      simp [apply_ite (fun d : PyDict => d.lookup "iss"),
            dictSet_lookup_ne _ "iat" _ "iss" (by decide),
            dictSet_lookup_ne _ "exp" _ "iss" (by decide),
            dictSet_lookup_ne _ "aud" _ "iss" (by decide),
            dictSet_lookup_ne _ "cnf" _ "iss" (by decide),
            dictSetdefault_lookup_ne _ "sub" _ "iss" (by decide), h]
  · unfold generate_token_claims
    rcases audience with _ | a <;>
      simp [apply_ite (fun d : PyDict => d.lookup "iss"),
            dictSet_lookup_ne _ "aud" _ "iss" (by decide),
            dictSet_lookup_ne _ "cnf" _ "iss" (by decide),
            dictSet_lookup_self]
  · intro s
    unfold generate_token_claims
    rcases audience with _ | a <;>
      simp [apply_ite (fun d : PyDict => d.lookup "iss"),
            dictSet_lookup_ne _ "aud" _ "iss" (by decide),
            dictSet_lookup_ne _ "cnf" _ "iss" (by decide),
            dictSet_lookup_self]
  · intro h
    unfold generate_dpop_bound_token_claims
    rcases audience with _ | a <;>
      simp [apply_ite (fun d : PyDict => d.lookup "iss"),
            dictSet_lookup_ne _ "iat" _ "iss" (by decide),
            dictSet_lookup_ne _ "exp" _ "iss" (by decide),
            dictSet_lookup_ne _ "aud" _ "iss" (by decide),
            dictSet_lookup_ne _ "cnf" _ "iss" (by decide),
            dictSetdefault_lookup_ne _ "sub" _ "iss" (by decide), h]
  · unfold generate_dpop_bound_token_claims
    rcases audience with _ | a <;>
      simp [apply_ite (fun d : PyDict => d.lookup "iss"),
            dictSet_lookup_ne _ "aud" _ "iss" (by decide),
            dictSet_lookup_ne _ "cnf" _ "iss" (by decide),
            dictSet_lookup_self]
  · intro s
    unfold generate_dpop_bound_token_claims
    rcases audience with _ | a <;>
      simp [apply_ite (fun d : PyDict => d.lookup "iss"),
            dictSet_lookup_ne _ "aud" _ "iss" (by decide),
            dictSet_lookup_ne _ "cnf" _ "iss" (by decide),
            dictSet_lookup_self]

/-- C7 witness: with no extra claims, issuer `False` omits `iss`, omitted
issuer defaults it, and a string issuer is used verbatim, in both encoders. -/
theorem issuer_tristate_witness :
    ((none : Option PyDict).getD []).lookup "iss" = none ∧
    (generate_token_claims "auth0.local" "user_123" none IssuerArg.falseA true true none 0 3600
      "bearer").lookup "iss" = none ∧
    (generate_token_claims "auth0.local" "user_123" none IssuerArg.noneA true true none 0 3600
      "bearer").lookup "iss" = some (PyVal.s ("https://" ++ "auth0.local" ++ "/")) ∧
    (generate_dpop_bound_token_claims "auth0.local" "user_123" none (IssuerArg.strA
      "https://custom.issuer/") true true none 0 3600 none).lookup "iss" =
      some (PyVal.s "https://custom.issuer/") :=
  ⟨rfl,
   (issuer_tristate "auth0.local" "user_123" none true true none 0 3600 "bearer" none).1 rfl,
   (issuer_tristate "auth0.local" "user_123" none true true none 0 3600 "bearer" none).2.1,
   (issuer_tristate "auth0.local" "user_123" none true true none 0 3600 "bearer"
      none).2.2.2.2.2 "https://custom.issuer/"⟩

/-- C8: for claims whose `scope` claim is a non-empty string,
`validate_scopes` succeeds exactly when every required scope occurs among the
whitespace-split tokens of that string; concretely,
`scope: "read:data write:data"` satisfies `{read:data}` but not
`{delete:data}`. -/
theorem validate_scopes_iff (claims : PyDict) (s : String) (required : List String)
    (h : claims.lookup "scope" = some (PyVal.s s)) (hne : s ≠ "") :
    (validate_scopes claims required = true ↔ ∀ r ∈ required, r ∈ pySplitWs s) ∧
    validate_scopes [("scope", PyVal.s "read:data write:data")] ["read:data"] = true ∧
    validate_scopes [("scope", PyVal.s "read:data write:data")] ["delete:data"] = false := by
  refine ⟨?_, rfl, rfl⟩
  unfold validate_scopes
  simp only [h]
  simp [hne, List.all_eq_true]

/-- C8 witness: the concrete scope string from the specification's example. -/
theorem validate_scopes_iff_witness :
    ([("scope", PyVal.s "read:data write:data")] : PyDict).lookup "scope" =
      some (PyVal.s "read:data write:data") ∧
    ("read:data write:data" : String) ≠ "" ∧
    ((validate_scopes [("scope", PyVal.s "read:data write:data")] ["read:data"] = true ↔
        ∀ r ∈ ["read:data"], r ∈ pySplitWs "read:data write:data") ∧
      validate_scopes [("scope", PyVal.s "read:data write:data")] ["read:data"] = true ∧
      validate_scopes [("scope", PyVal.s "read:data write:data")] ["delete:data"] = false) :=
  ⟨rfl, by decide,
   validate_scopes_iff [("scope", PyVal.s "read:data write:data")] "read:data write:data"
     ["read:data"] rfl (by decide)⟩

/-- C9: when upstream verification succeeds but the verified claims fail the
required-scopes check, the dependency rejects with HTTP 403, machine-readable
error code `insufficient_scope` and a human-readable description, and the
verified claims are never returned. -/
theorem require_auth_insufficient_scope (scopes : ScopesArg) (claims : PyDict)
    (ht : scopesTruthy scopes = true)
    (hv : validate_scopes claims (requiredScopes scopes) = false) :
    require_auth_dependency scopes (VerifyOutcome.verified claims) =
      Except.error ⟨403, "insufficient_scope", "Insufficient scopes", []⟩ ∧
    ∀ c, require_auth_dependency scopes (VerifyOutcome.verified claims) ≠ Except.ok c := by
  have h1 : require_auth_dependency scopes (VerifyOutcome.verified claims) =
      Except.error ⟨403, "insufficient_scope", "Insufficient scopes", []⟩ := by
    unfold require_auth_dependency
    simp [ht, hv, http_exception]
  refine ⟨h1, fun c hc => ?_⟩
  rw [h1] at hc
  cases hc

/-- C9 witness: scope `read:data write:data` does not cover the required
`delete:data`, so the dependency answers 403 insufficient_scope. -/
theorem require_auth_insufficient_scope_witness :
    scopesTruthy (ScopesArg.strS "delete:data") = true ∧
    validate_scopes [("scope", PyVal.s "read:data write:data")]
      (requiredScopes (ScopesArg.strS "delete:data")) = false ∧
    require_auth_dependency (ScopesArg.strS "delete:data")
      (VerifyOutcome.verified [("scope", PyVal.s "read:data write:data")]) =
      Except.error ⟨403, "insufficient_scope", "Insufficient scopes", []⟩ :=
  ⟨rfl, rfl,
   (require_auth_insufficient_scope (ScopesArg.strS "delete:data")
      [("scope", PyVal.s "read:data write:data")] rfl rfl).1⟩

/-- C10: every non-`BaseAuthError` exception from the upstream verification
call is converted by the dependency into a rejection with HTTP 400, error
code `invalid_request` and the raw exception message as the description; no
unexpected exception escapes unconverted, and no claims are returned. -/
theorem require_auth_unexpected_error_mapped (scopes : ScopesArg) (msg : String) :
    require_auth_dependency scopes (VerifyOutcome.unexpectedError msg) =
      Except.error ⟨400, "invalid_request", msg, []⟩ ∧
    ∀ c, require_auth_dependency scopes (VerifyOutcome.unexpectedError msg) ≠ Except.ok c :=
  ⟨rfl, fun _ hc => Except.noConfusion hc⟩
